import Mathlib

set_option autoImplicit false

/-!
Verification development for the CodeHive relay: a shallow embedding of the
room model (`src/relay/room.ts`), the relevant relay server handlers
(`src/relay/server.ts`), the diff summarizer (`src/shared/utils.ts`) and the
agent client's offline queue (`client.ts`), together with theorems settling
the specification claims.

JavaScript `Map` objects (insertion-ordered) are embedded as association
lists; JS `number` timestamps as `Nat`, passed explicitly to every operation
that reads the clock (`now()` in the source).  Timer handles
(`typingTimers`) are embedded as the set of device ids that currently hold a
live timer.  WebSocket sends are embedded as an explicit emission list.
-/

namespace CodeHive

/-! ## JS insertion-ordered maps as association lists -/

namespace JsMap

variable {K V : Type} [DecidableEq K]

/-- `Map.get(k)` — first (and, for well-formed maps, only) binding of `k`. -/
def get (l : List (K × V)) (k : K) : Option V :=
  (l.find? (fun e => decide (e.1 = k))).map (fun e => e.2)

/-- `Map.set(k, v)` — replace in place when present, else append. -/
def set (l : List (K × V)) (k : K) (v : V) : List (K × V) :=
  if l.any (fun e => decide (e.1 = k)) then
    l.map (fun e => if e.1 = k then (k, v) else e)
  else l ++ [(k, v)]

/-- `Map.delete(k)`. -/
def erase (l : List (K × V)) (k : K) : List (K × V) :=
  l.filter (fun e => decide (e.1 ≠ k))

/-- `Map.has(k)`. -/
def contains (l : List (K × V)) (k : K) : Bool :=
  l.any (fun e => decide (e.1 = k))

end JsMap

/-! ## SHA-256 (the `node:crypto` sha256/hex digest used by `hashPassword`) -/

namespace SHA256

/-- Word size modulus: arithmetic is on 32-bit words. -/
def M32 : Nat := 4294967296

/-- Right-rotation of a 32-bit word. -/
def rotr (k n : Nat) : Nat :=
  (n >>> k ||| n <<< (32 - k)) % M32

def ssig0 (n : Nat) : Nat := rotr 7 n ^^^ rotr 18 n ^^^ (n >>> 3)

def ssig1 (n : Nat) : Nat := rotr 17 n ^^^ rotr 19 n ^^^ (n >>> 10)

def bsig0 (n : Nat) : Nat := rotr 2 n ^^^ rotr 13 n ^^^ rotr 22 n

def bsig1 (n : Nat) : Nat := rotr 6 n ^^^ rotr 11 n ^^^ rotr 25 n

def ch (x y z : Nat) : Nat := (x &&& y) ^^^ ((x ^^^ 4294967295) &&& z)

def maj (x y z : Nat) : Nat := (x &&& y) ^^^ (x &&& z) ^^^ (y &&& z)

/-- The 64 round constants (FIPS 180-4, written in decimal). -/
def K : List Nat :=
  [1116352408, 1899447441, 3049323471, 3921009573, 961987163, 1508970993,
   2453635748, 2870763221, 3624381080, 310598401, 607225278, 1426881987,
   1925078388, 2162078206, 2614888103, 3248222580, 3835390401, 4022224774,
   264347078, 604807628, 770255983, 1249150122, 1555081692, 1996064986,
   2554220882, 2821834349, 2952996808, 3210313671, 3336571891, 3584528711,
   113926993, 338241895, 666307205, 773529912, 1294757372, 1396182291,
   1695183700, 1986661051, 2177026350, 2456956037, 2730485921, 2820302411,
   3259730800, 3345764771, 3516065817, 3600352804, 4094571909, 275423344,
   430227734, 506948616, 659060556, 883997877, 958139571, 1322822218,
   1537002063, 1747873779, 1955562222, 2024104815, 2227730452, 2361852424,
   2428436474, 2756734187, 3204031479, 3329325298]

/-- Initial hash state (FIPS 180-4, written in decimal). -/
def H0 : List Nat :=
  [1779033703, 3144134277, 1013904242, 2773480762,
   1359893119, 2600822924, 528734635, 1541459225]

/-- Big-endian byte expansion, fixed width. -/
def beBytes : Nat → Nat → List Nat
  | 0, _ => []
  | w + 1, n => (n >>> (8 * w)) % 256 :: beBytes w n

/-- SHA-256 padding: `0x80`, zeros to 56 mod 64, then the 64-bit bit length. -/
def pad (msg : List Nat) : List Nat :=
  let l := msg.length
  let zeros := (64 + 56 - (l + 1) % 64) % 64
  msg ++ [0x80] ++ List.replicate zeros 0 ++ beBytes 8 (8 * l)

/-- Split a byte list into 64-byte blocks. -/
def chunks64 (l : List Nat) : List (List Nat) :=
  if h : l = [] then []
  else l.take 64 :: chunks64 (l.drop 64)
termination_by l.length
decreasing_by
  simp only [List.length_drop]
  exact Nat.sub_lt (List.length_pos.mpr h) (by decide)

/-- Group 4 big-endian bytes into one 32-bit word. -/
def words32 : List Nat → List Nat
  | b0 :: b1 :: b2 :: b3 :: rest =>
      (b0 <<< 24 ||| b1 <<< 16 ||| b2 <<< 8 ||| b3) :: words32 rest
  | _ => []

/-- Message-schedule extension from 16 to 64 words. -/
def schedule (ws : List Nat) : List Nat :=
  (List.range 48).foldl
    (fun acc _ =>
      let n := acc.length
      acc ++ [(ssig1 (acc.getD (n - 2) 0) + acc.getD (n - 7) 0 +
               ssig0 (acc.getD (n - 15) 0) + acc.getD (n - 16) 0) % M32])
    ws

/-- Working state of the compression loop. -/
structure St where
  a : Nat
  b : Nat
  c : Nat
  d : Nat
  e : Nat
  f : Nat
  g : Nat
  h : Nat

def roundFn (st : St) (kw : Nat × Nat) : St :=
  let t1 := (st.h + bsig1 st.e + ch st.e st.f st.g + kw.1 + kw.2) % M32
  let t2 := (bsig0 st.a + maj st.a st.b st.c) % M32
  { a := (t1 + t2) % M32, b := st.a, c := st.b, d := st.c,
    e := (st.d + t1) % M32, f := st.e, g := st.f, h := st.g }

/-- Compress one 64-byte block into the running hash. -/
def compress (hs : List Nat) (block : List Nat) : List Nat :=
  let ws := schedule (words32 block)
  let st0 : St := { a := hs.getD 0 0, b := hs.getD 1 0, c := hs.getD 2 0, d := hs.getD 3 0,
                    e := hs.getD 4 0, f := hs.getD 5 0, g := hs.getD 6 0, h := hs.getD 7 0 }
  let st := (K.zip ws).foldl roundFn st0
  [(hs.getD 0 0 + st.a) % M32, (hs.getD 1 0 + st.b) % M32, (hs.getD 2 0 + st.c) % M32,
   (hs.getD 3 0 + st.d) % M32, (hs.getD 4 0 + st.e) % M32, (hs.getD 5 0 + st.f) % M32,
   (hs.getD 6 0 + st.g) % M32, (hs.getD 7 0 + st.h) % M32]

/-- SHA-256 over a byte list: eight 32-bit hash words. -/
def digestWords (msg : List Nat) : List Nat :=
  (chunks64 (pad msg)).foldl compress H0

def hexChar (n : Nat) : Char :=
  if n < 10 then Char.ofNat (48 + n) else Char.ofNat (87 + n)

/-- Lower-case hex of one 32-bit word (8 digits). -/
def hexWord (n : Nat) : List Char :=
  ((List.range 8).map (fun i => hexChar ((n >>> (4 * (7 - i))) % 16)))

/-- UTF-8 bytes of one character. -/
def utf8Bytes (c : Char) : List Nat :=
  let n := c.toNat
  if n < 0x80 then [n]
  else if n < 0x800 then [0xc0 ||| n >>> 6, 0x80 ||| (n &&& 0x3f)]
  else if n < 0x10000 then
    [0xe0 ||| n >>> 12, 0x80 ||| (n >>> 6 &&& 0x3f), 0x80 ||| (n &&& 0x3f)]
  else
    [0xf0 ||| n >>> 18, 0x80 ||| (n >>> 12 &&& 0x3f), 0x80 ||| (n >>> 6 &&& 0x3f),
     0x80 ||| (n &&& 0x3f)]

/-- `createHash("sha256").update(s).digest("hex")`. -/
def hexDigest (s : String) : String :=
  String.mk (((digestWords ((s.data.map utf8Bytes).flatten)).map hexWord).flatten)

end SHA256

/-- `hashPassword` from `src/relay/room.ts`: sha256 hex of the password. -/
def hashPassword (password : String) : String :=
  SHA256.hexDigest password

/-! ## Protocol constants (`src/shared/protocol.ts`) -/

def MAX_RECENT_CHANGES : Nat := 100

def MAX_ROOM_MEMBERS : Nat := 20

def MAX_TIMELINE_EVENTS : Nat := 200

def MAX_LOCKS_PER_ROOM : Nat := 50

/-! ## Core data types (`src/shared/types.ts`) -/

inductive DevStatus
  | active
  | idle
  | away
deriving DecidableEq, Repr

structure CursorPosition where
  file : String
  line : Nat
  column : Nat
  endLine : Option Nat := none
  endColumn : Option Nat := none
deriving DecidableEq, Repr

structure DevInfo where
  deviceId : String
  name : String
  status : DevStatus
  workingOn : List String
  joinedAt : Nat
  lastSeen : Nat
  branch : Option String
  typingIn : Option String
  cursor : Option CursorPosition
deriving DecidableEq, Repr

structure FileLock where
  file : String
  lockedBy : String
  deviceId : String
  lockedAt : Nat
deriving DecidableEq, Repr

inductive ChangeType
  | add
  | change
  | unlink
deriving DecidableEq, Repr

/-- The `${change.type}` string used in template interpolation. -/
def ChangeType.str : ChangeType → String
  | .add => "add"
  | .change => "change"
  | .unlink => "unlink"

structure FileChange where
  path : String
  type : ChangeType
  author : String
  deviceId : String
  timestamp : Nat
  diff : Option String
  linesAdded : Nat
  linesRemoved : Nat
  sizeBefore : Option Nat := none
  sizeAfter : Option Nat := none
deriving DecidableEq, Repr

inductive TimelineType
  | join
  | leave
  | chat
  | file_change
  | lock
  | unlock
  | conflict
  | branch_change
deriving DecidableEq, Repr

structure TimelineEvent where
  id : Nat
  timestamp : Nat
  type : TimelineType
  actor : String
  detail : String
deriving DecidableEq, Repr

structure WebhookConfig where
  url : String
  events : List String
deriving DecidableEq, Repr

structure RoomInfo where
  code : String
  createdAt : Nat
  createdBy : String
  members : List DevInfo
  recentChanges : List FileChange
  hasPassword : Bool
  locks : List FileLock
  isPublic : Bool
  expiresInHours : Nat
  timeline : List TimelineEvent
deriving DecidableEq, Repr

structure RoomSummary where
  code : String
  createdBy : String
  createdAt : Nat
  memberCount : Nat
  memberNames : List String
  hasPassword : Bool
deriving DecidableEq, Repr

/-- JS truthiness of a `string | null | undefined` value. -/
def jsTruthy : Option String → Bool
  | some s => decide (s ≠ "")
  | none => false

/-- JS `arr.slice(-n)` (for `n = 0` this is `slice(0)`, the whole array). -/
def jsSliceLast {α : Type} (l : List α) (n : Nat) : List α :=
  if n = 0 then l else l.drop (l.length - n)

/-! ## Room state (`src/relay/room.ts`)

The `ws` transport handle of each connected client is not representable and
is dropped from the member entry; `typingTimers` keeps the keys of the JS
timer map (the devices with a live auto-clear timer). -/

structure Room where
  code : String
  createdAt : Nat
  createdBy : String
  password : Option String
  isPublic : Bool
  expiresInHours : Nat
  lastActivity : Nat
  clients : List (String × DevInfo) := []
  recentChanges : List FileChange := []
  locks : List (String × FileLock) := []
  timeline : List TimelineEvent := []
  timelineCounter : Nat := 0
  typingTimers : List String := []
  webhook : Option WebhookConfig := none
deriving DecidableEq, Repr

/-- The `Room` constructor (`password || null` empties to null; `t` is `now()`). -/
def Room.make (code createdBy : String) (password : Option String) (isPublic : Bool)
    (expiresInHours : Nat) (t : Nat) : Room :=
  { code, createdAt := t, createdBy,
    password := match password with
      | some p => if p = "" then none else some p
      | none => none,
    isPublic, expiresInHours, lastActivity := t }

/-- `checkPassword`: true when the room password is falsy (`null` or `""`). -/
def Room.checkPassword (r : Room) (password : Option String) : Bool :=
  match r.password with
  | none => true
  | some p => if p = "" then true else decide (password = some p)

def Room.memberCount (r : Room) : Nat := r.clients.length

def Room.isEmpty (r : Room) : Bool := decide (r.clients.length = 0)

def Room.isExpired (r : Room) (t : Nat) : Bool :=
  if r.expiresInHours ≤ 0 then false
  else decide ((t : Int) - r.lastActivity > (r.expiresInHours : Int) * 3600000)

def Room.touch (r : Room) (t : Nat) : Room := { r with lastActivity := t }

/-- `addTimelineEvent`: monotone id, append, keep the last `MAX_TIMELINE_EVENTS`. -/
def Room.addTimelineEvent (r : Room) (ty : TimelineType) (actor detail : String) (t : Nat) :
    Room × TimelineEvent :=
  let event : TimelineEvent :=
    { id := r.timelineCounter + 1, timestamp := t, type := ty, actor, detail }
  let tl := r.timeline ++ [event]
  let tl := if tl.length > MAX_TIMELINE_EVENTS then jsSliceLast tl MAX_TIMELINE_EVENTS else tl
  ({ r with timelineCounter := r.timelineCounter + 1, timeline := tl }, event)

/-- `addMember`: error string on full room or duplicate device, else seat the member,
touch activity and append a `join` event (`branch || undefined`). -/
def Room.addMember (r : Room) (deviceId name : String) (branch : Option String) (t : Nat) :
    Option String × Room :=
  if r.clients.length ≥ MAX_ROOM_MEMBERS then
    (some ("Room " ++ r.code ++ " is full (max " ++ Nat.repr MAX_ROOM_MEMBERS ++ " members)"), r)
  else if JsMap.contains r.clients deviceId then
    (some ("Device " ++ deviceId ++ " is already in room " ++ r.code), r)
  else
    let info : DevInfo :=
      { deviceId, name, status := .active, workingOn := [], joinedAt := t, lastSeen := t,
        branch := if jsTruthy branch then branch else none, typingIn := none, cursor := none }
    let r := { r with clients := JsMap.set r.clients deviceId info }
    let r := r.touch t
    (none, (r.addTimelineEvent .join name (name ++ " joined the room") t).1)

/-- `removeMember`: clear the typing timer, release the device's locks, drop the
seat, touch activity, append a `leave` event; `none` and no change when absent. -/
def Room.removeMember (r : Room) (deviceId : String) (t : Nat) : Option DevInfo × Room :=
  match JsMap.get r.clients deviceId with
  | none => (none, r)
  | some info =>
    let r := { r with typingTimers := r.typingTimers.filter (fun d => decide (d ≠ deviceId)) }
    let r := { r with locks := r.locks.filter (fun e => decide (e.2.deviceId ≠ deviceId)) }
    let r := { r with clients := JsMap.erase r.clients deviceId }
    let r := r.touch t
    (some info, (r.addTimelineEvent .leave info.name (info.name ++ " left the room") t).1)

def Room.getMember (r : Room) (deviceId : String) : Option DevInfo :=
  JsMap.get r.clients deviceId

/-- `updateHeartbeat`: refresh `lastSeen`/`status`, adopt a truthy branch, touch,
and log a `branch_change` event when a truthy branch differs from a truthy old one. -/
def Room.updateHeartbeat (r : Room) (deviceId : String) (status : DevStatus)
    (branch : Option String) (t : Nat) : Room :=
  match JsMap.get r.clients deviceId with
  | none => r
  | some info =>
    let oldBranch := info.branch
    let info := { info with lastSeen := t, status }
    let info := if jsTruthy branch then { info with branch } else info
    let r := { r with clients := JsMap.set r.clients deviceId info }
    let r := r.touch t
    if jsTruthy branch ∧ jsTruthy oldBranch ∧ branch ≠ oldBranch then
      (r.addTimelineEvent .branch_change info.name
        (info.name ++ " switched from " ++ oldBranch.getD "" ++ " to " ++ branch.getD "") t).1
    else r

/-- `setTyping`: set `typingIn`, replace the auto-clear timer for a truthy file,
drop the timer otherwise.  (The 10 s auto-clear firing is real-time behaviour
outside the state model.) -/
def Room.setTyping (r : Room) (deviceId : String) (file : Option String) : Room :=
  match JsMap.get r.clients deviceId with
  | none => r
  | some info =>
    let r := { r with clients := JsMap.set r.clients deviceId { info with typingIn := file } }
    if jsTruthy file then
      { r with typingTimers :=
          if deviceId ∈ r.typingTimers then r.typingTimers else r.typingTimers ++ [deviceId] }
    else
      { r with typingTimers := r.typingTimers.filter (fun d => decide (d ≠ deviceId)) }

/-- `updateCursor`: last-writer-wins on the member's cursor (no `touch`). -/
def Room.updateCursor (r : Room) (deviceId : String) (cursor : Option CursorPosition) : Room :=
  match JsMap.get r.clients deviceId with
  | none => r
  | some info => { r with clients := JsMap.set r.clients deviceId { info with cursor } }

structure LockResult where
  success : Bool
  error : Option String := none
  lockedBy : Option String := none
deriving DecidableEq, Repr

/-- `lockFile`. -/
def Room.lockFile (r : Room) (deviceId name file : String) (t : Nat) : LockResult × Room :=
  match JsMap.get r.locks file with
  | some existing =>
    if existing.deviceId = deviceId then ({ success := true }, r)
    else ({ success := false,
            error := some ("File \"" ++ file ++ "\" is locked by " ++ existing.lockedBy),
            lockedBy := some existing.lockedBy }, r)
  | none =>
    if r.locks.length ≥ MAX_LOCKS_PER_ROOM then
      ({ success := false,
         error := some ("Too many locks in room (max " ++ Nat.repr MAX_LOCKS_PER_ROOM ++ ")") }, r)
    else
      let lock : FileLock := { file, lockedBy := name, deviceId, lockedAt := t }
      let r := { r with locks := JsMap.set r.locks file lock }
      let r := r.touch t
      ({ success := true }, (r.addTimelineEvent .lock name (name ++ " locked " ++ file) t).1)

structure UnlockResult where
  success : Bool
  error : Option String := none
deriving DecidableEq, Repr

/-- `unlockFile`. -/
def Room.unlockFile (r : Room) (deviceId name file : String) (t : Nat) : UnlockResult × Room :=
  match JsMap.get r.locks file with
  | none => ({ success := true }, r)
  | some existing =>
    if existing.deviceId ≠ deviceId then
      ({ success := false,
         error := some ("File \"" ++ file ++ "\" is locked by " ++ existing.lockedBy ++
                        ", only they can unlock it") }, r)
    else
      let r := { r with locks := JsMap.erase r.locks file }
      let r := r.touch t
      ({ success := true }, (r.addTimelineEvent .unlock name (name ++ " unlocked " ++ file) t).1)

def Room.getLocks (r : Room) : List FileLock := r.locks.map (fun e => e.2)

def Room.getFileLock (r : Room) (file : String) : Option FileLock :=
  JsMap.get r.locks file

/-- `getBranches`: name-keyed record of the truthy member branches, in member
order, later same-named members overwriting earlier ones in place. -/
def Room.getBranches (r : Room) : List (String × String) :=
  r.clients.foldl
    (fun branches e =>
      if jsTruthy e.2.branch then JsMap.set branches e.2.name (e.2.branch.getD "") else branches)
    []

structure BranchCheck where
  diverged : Bool
  branches : List (String × String)
  message : String
deriving DecidableEq, Repr

/-- `checkBranchDivergence`: diverged when the name-keyed branch record holds
more than one distinct value. -/
def Room.checkBranchDivergence (r : Room) : BranchCheck :=
  let branches := r.getBranches
  if (branches.map (fun e => e.2)).dedup.length ≤ 1 then
    { diverged := false, branches, message := "" }
  else
    { diverged := true, branches,
      message := "Team members are on different branches: " ++
        String.intercalate ", " (branches.map (fun e => e.1 ++ ": " ++ e.2)) ++
        ". Coordinate before merging." }

def Room.getTimeline (r : Room) (limit : Nat) : List TimelineEvent :=
  jsSliceLast r.timeline limit

structure WorkingConflict where
  file : String
  otherDevs : List String
deriving DecidableEq, Repr

/-- `updateWorkingFiles`: replace the member's working set and `lastSeen`, then
collect, per declared file, the other members also declaring it. -/
def Room.updateWorkingFiles (r : Room) (deviceId _name : String) (files : List String) (t : Nat) :
    List WorkingConflict × Room :=
  let r := match JsMap.get r.clients deviceId with
    | some info =>
        let updated := { info with workingOn := files, lastSeen := t }
        { r with clients := JsMap.set r.clients deviceId updated }
    | none => r
  let conflicts : List WorkingConflict := files.filterMap (fun file =>
    let otherDevs : List String := (r.clients.filter
      (fun e => decide (e.1 ≠ deviceId) && e.2.workingOn.contains file)).map (fun e => e.2.name)
    if otherDevs.length = 0 then none else some { file, otherDevs })
  (conflicts, r)

/-- `recordFileChange`: push into the recent-changes ring, touch, append a
`file_change` event, and return the names of other members working on the path. -/
def Room.recordFileChange (r : Room) (change : FileChange) (t : Nat) : List String × Room :=
  let rc := r.recentChanges ++ [change]
  let rc := if rc.length > MAX_RECENT_CHANGES then jsSliceLast rc MAX_RECENT_CHANGES else rc
  let r := { r with recentChanges := rc }
  let r := r.touch t
  let r := (r.addTimelineEvent .file_change change.author
    (change.author ++ " " ++ change.type.str ++ "d " ++ change.path) t).1
  let conflictingDevs := (r.clients.filter
    (fun e => decide (e.2.deviceId ≠ change.deviceId) && e.2.workingOn.contains change.path)).map
    (fun e => e.2.name)
  (conflictingDevs, r)

def Room.findDeadClients (r : Room) (timeoutMs t : Nat) : List String :=
  (r.clients.filter (fun e => decide ((e.2.lastSeen : Int) < (t : Int) - (timeoutMs : Int)))).map
    (fun e => e.1)

def Room.toRoomInfo (r : Room) : RoomInfo :=
  { code := r.code, createdAt := r.createdAt, createdBy := r.createdBy,
    members := r.clients.map (fun e => e.2),
    recentChanges := jsSliceLast r.recentChanges 20,
    hasPassword := r.password.isSome,
    locks := r.getLocks, isPublic := r.isPublic, expiresInHours := r.expiresInHours,
    timeline := jsSliceLast r.timeline 20 }

def Room.toRoomSummary (r : Room) : RoomSummary :=
  { code := r.code, createdBy := r.createdBy, createdAt := r.createdAt,
    memberCount := r.clients.length,
    memberNames := r.clients.map (fun e => e.2.name),
    hasPassword := r.password.isSome }

/-! ## Room registry (`RoomManager`) -/

structure RoomManager where
  rooms : List (String × Room) := []
deriving DecidableEq, Repr

def RoomManager.createRoom (m : RoomManager) (code createdBy : String) (password : Option String)
    (isPublic : Bool) (expiresInHours : Nat) (t : Nat) : Room × RoomManager :=
  let room := Room.make code createdBy password isPublic expiresInHours t
  (room, { rooms := JsMap.set m.rooms code room })

def RoomManager.getRoom (m : RoomManager) (code : String) : Option Room :=
  JsMap.get m.rooms code

def RoomManager.deleteRoom (m : RoomManager) (code : String) : RoomManager :=
  { rooms := JsMap.erase m.rooms code }

def RoomManager.hasRoom (m : RoomManager) (code : String) : Bool :=
  JsMap.contains m.rooms code

def RoomManager.roomCount (m : RoomManager) : Nat := m.rooms.length

def RoomManager.getPublicRooms (m : RoomManager) : List RoomSummary :=
  (m.rooms.filter (fun e => e.2.isPublic && !e.2.isEmpty)).map (fun e => e.2.toRoomSummary)

def RoomManager.pruneExpiredRooms (m : RoomManager) (t : Nat) : Nat × RoomManager :=
  ((m.rooms.filter (fun e => e.2.isExpired t)).length,
   { rooms := m.rooms.filter (fun e => !e.2.isExpired t) })

def RoomManager.pruneEmptyRooms (m : RoomManager) : Nat × RoomManager :=
  ((m.rooms.filter (fun e => e.2.isEmpty)).length,
   { rooms := m.rooms.filter (fun e => !e.2.isEmpty) })

/-- The record shape pushed by `RoomManager.toJSON` for one room (and written
verbatim to `.codehive-rooms.json` by `saveRooms`); there is no plaintext
password field. -/
structure PersistedRoom where
  code : String
  createdAt : Nat
  createdBy : String
  hasPassword : Bool
  passwordHash : Option String
  isPublic : Bool
  expiresInHours : Nat
  lastActivity : Nat
deriving DecidableEq, Repr

/-- The object literal pushed by `toJSON` for one room:
`passwordHash: room.password ? hashPassword(room.password) : null`. -/
def Room.persistRecord (room : Room) : PersistedRoom :=
  { code := room.code, createdAt := room.createdAt, createdBy := room.createdBy,
    hasPassword := room.password.isSome,
    passwordHash := match room.password with
      | some p => if p = "" then none else some (hashPassword p)
      | none => none,
    isPublic := room.isPublic, expiresInHours := room.expiresInHours,
    lastActivity := room.lastActivity }

/-- `RoomManager.toJSON`: one record per non-empty room, in map order. -/
def RoomManager.toJSON (m : RoomManager) : List PersistedRoom :=
  (m.rooms.filter (fun e => !e.2.isEmpty)).map (fun e => e.2.persistRecord)

/-- The string fields of a persisted record (for plaintext-absence statements). -/
def PersistedRoom.stringFields (p : PersistedRoom) : List String :=
  [p.code, p.createdBy] ++ p.passwordHash.toList

/-! ## Diff summarizer (`computeDiffSummary`, `src/shared/utils.ts`)

JS string contents are embedded as Lean strings; `content.split("\n")` is
embedded by `jsSplit`, which reproduces the JS semantics (`n` separators give
`n+1` parts, `""` gives `[""]`). -/

def jsSplitAux (sep : Char) : List Char → List String
  | [] => [""]
  | c :: cs =>
    let rest := jsSplitAux sep cs
    if c = sep then "" :: rest
    else
      match rest with
      | [] => [String.mk [c]]
      | s :: ss => String.mk (c :: s.data) :: ss

/-- JS `s.split(sep)` for a one-character separator. -/
def jsSplit (s : String) (sep : Char) : List String :=
  jsSplitAux sep s.data

def MAX_DIFF_LINES : Nat := 2000

/-- The forward scan with limited lookahead (the `while` loop of
`computeDiffSummary`): returns `(removed, added)` in emission order. -/
def diffScan : List String → List String → List String × List String
  | [], [] => ([], [])
  | [], n :: ns =>
    let (rem, add) := diffScan [] ns
    (rem, n :: add)
  | o :: os, [] =>
    let (rem, add) := diffScan os []
    (o :: rem, add)
  | o :: os, n :: ns =>
    if o = n then diffScan os ns
    else
      let lookAheadNew := ns.findIdx? (fun x => decide (x = o))
      let lookAheadOld := os.findIdx? (fun x => decide (x = n))
      match lookAheadNew, lookAheadOld with
      | some j, jo =>
        if jo = none ∨ j ≤ jo.getD 0 then
          let (rem, add) := diffScan (o :: os) (ns.drop j)
          (rem, n :: ns.take j ++ add)
        else
          let (rem, add) := diffScan (os.drop (jo.getD 0)) (n :: ns)
          (o :: os.take (jo.getD 0) ++ rem, add)
      | none, some j =>
        let (rem, add) := diffScan (os.drop j) (n :: ns)
        (o :: os.take j ++ rem, add)
      | none, none =>
        let (rem, add) := diffScan os ns
        (o :: rem, n :: add)
termination_by olds news => olds.length + news.length
decreasing_by
  all_goals simp only [List.length_cons, List.length_drop]
  all_goals omega

structure DiffSummary where
  diff : String
  linesAdded : Nat
  linesRemoved : Nat
deriving DecidableEq, Repr

/-- `computeDiffSummary` (`Math.max(0, a - b)` is `Nat` subtraction). -/
def computeDiffSummary (oldContent newContent : String) : DiffSummary :=
  let oldLines := jsSplit oldContent '\n'
  let newLines := jsSplit newContent '\n'
  if oldLines.length > MAX_DIFF_LINES ∨ newLines.length > MAX_DIFF_LINES then
    let linesAdded := newLines.length - oldLines.length
    let linesRemoved := oldLines.length - newLines.length
    let changed := if linesAdded = 0 ∧ linesRemoved = 0 then 1 else 0
    { diff := "(file too large for detailed diff: " ++ Nat.repr oldLines.length ++ " → " ++
        Nat.repr newLines.length ++ " lines)",
      linesAdded := linesAdded + changed,
      linesRemoved := linesRemoved + changed }
  else
    let scanned := diffScan oldLines newLines
    let removed := scanned.1
    let added := scanned.2
    let parts := (removed.take 10).map (fun l => "- " ++ l) ++
                 (added.take 10).map (fun l => "+ " ++ l)
    let parts := if removed.length > 10 ∨ added.length > 10 then
        parts ++ ["... (" ++ Nat.repr removed.length ++ " removed, " ++
                  Nat.repr added.length ++ " added total)"]
      else parts
    { diff := String.intercalate "\n" parts,
      linesAdded := added.length, linesRemoved := removed.length }

/-! ## Relay server handlers (`src/relay/server.ts`)

Each handler is embedded as a function from the registry and the inbound
frame to the new registry plus an emission trace: `reply` is
`sendMessage/sendError` on the handling connection, `broadcast` is
`room.broadcast(msg, exclude?)`, and `webhook ev` is a `fireWebhook(room,
ev, …)` call (whose event filtering and HTTP delivery are outside the state
model). -/

inductive ServerMsg
  | errorFrame (error : String) (timestamp : Nat)
  | file_changed (code : String) (change : FileChange) (timestamp : Nat)
  | conflict_warning (code : String) (file : String) (authors : List String)
      (message : String) (timestamp : Nat)
deriving DecidableEq, Repr

inductive Emission
  | reply (msg : ServerMsg)
  | broadcast (msg : ServerMsg) (excludeDeviceId : Option String)
  | webhook (event : String)
deriving DecidableEq, Repr

def Emission.isBroadcast : Emission → Bool
  | .broadcast _ _ => true
  | _ => false

structure FileChangeFrame where
  code : String
  deviceId : String
  change : FileChange
deriving DecidableEq, Repr

structure SetWebhookFrame where
  code : String
  deviceId : String
  webhook : Option WebhookConfig
deriving DecidableEq, Repr

structure SetRoomVisibilityFrame where
  code : String
  deviceId : String
  isPublic : Bool
deriving DecidableEq, Repr

/-- The non-error path of `handleFileChange` after the lock check. -/
def handleFileChangeBody (rooms : RoomManager) (msg : FileChangeFrame) (room : Room) (t : Nat) :
    RoomManager × List Emission :=
  let result := room.recordFileChange msg.change t
  let conflictingDevs := result.1
  let room := result.2
  let ems := [Emission.broadcast (.file_changed msg.code msg.change t) (some msg.deviceId)]
  let ems := if conflictingDevs.length > 0 then
      let allAuthors := msg.change.author :: conflictingDevs
      ems ++ [Emission.broadcast (.conflict_warning msg.code msg.change.path allAuthors
          ("File \"" ++ msg.change.path ++ "\" is being edited by multiple developers: " ++
           String.intercalate ", " allAuthors ++ ". Coordinate to avoid conflicts.") t) none,
        Emission.webhook "conflict"]
    else ems
  (({ rooms := JsMap.set rooms.rooms msg.code room } : RoomManager),
   ems ++ [Emission.webhook "file_change"])

/-- `handleFileChange`: silently drop on unknown room; reject with an in-band
`error` when the path is locked by another device; else record and fan out. -/
def handleFileChange (rooms : RoomManager) (msg : FileChangeFrame) (t : Nat) :
    RoomManager × List Emission :=
  match rooms.getRoom msg.code with
  | none => (rooms, [])
  | some room =>
    match room.getFileLock msg.change.path with
    | some lock =>
      if lock.deviceId ≠ msg.deviceId then
        (rooms, [.reply (.errorFrame
          ("File \"" ++ msg.change.path ++ "\" is locked by " ++ lock.lockedBy) t)])
      else handleFileChangeBody rooms msg room t
    | none => handleFileChangeBody rooms msg room t

/-- `handleSetWebhook`: unconditional overwrite once the room exists. -/
def handleSetWebhook (rooms : RoomManager) (msg : SetWebhookFrame) (t : Nat) :
    RoomManager × List Emission :=
  match rooms.getRoom msg.code with
  | none => (rooms, [.reply (.errorFrame ("Room " ++ msg.code ++ " not found") t)])
  | some room =>
    (({ rooms := JsMap.set rooms.rooms msg.code { room with webhook := msg.webhook } } :
        RoomManager), [])

/-- `handleSetRoomVisibility`: unconditional overwrite once the room exists. -/
def handleSetRoomVisibility (rooms : RoomManager) (msg : SetRoomVisibilityFrame) (t : Nat) :
    RoomManager × List Emission :=
  match rooms.getRoom msg.code with
  | none => (rooms, [.reply (.errorFrame ("Room " ++ msg.code ++ " not found") t)])
  | some room =>
    (({ rooms := JsMap.set rooms.rooms msg.code { room with isPublic := msg.isPublic } } :
        RoomManager), [])

/-! ## Agent client offline queue (`RelayClient`, `client.ts`)

The client is embedded as the state fields relevant to room membership and
queueing; the single rejoin once-listener registered by `connect()`'s open
handler is embedded as the `rejoinPending` flag, and outbound frames sent by
`this.send(...)` are collected in an emission list. -/

def MAX_QUEUED_CHANGES : Nat := 50

inductive ClientMsg
  | join_room (code deviceId name projectPath : String) (password branch : Option String)
      (timestamp : Nat)
  | file_change (code deviceId : String) (change : FileChange) (timestamp : Nat)
deriving DecidableEq, Repr

structure RelayClient where
  deviceId : String
  devName : String
  projectPath : String
  connected : Bool := false
  currentRoom : Option String := none
  currentPassword : Option String := none
  currentBranch : Option String := none
  fileChangeQueue : List FileChange := []
  rejoinPending : Bool := false
deriving DecidableEq, Repr

/-- `reportFileChange`: send when in a room and connected; queue (dropping the
oldest above `MAX_QUEUED_CHANGES`) when in a room but offline; drop otherwise. -/
def RelayClient.reportFileChange (c : RelayClient) (change : FileChange) (t : Nat) :
    RelayClient × List ClientMsg :=
  match c.currentRoom with
  | none => (c, [])
  | some code =>
    if c.connected then
      (c, [.file_change code c.deviceId change t])
    else
      let q := c.fileChangeQueue ++ [change]
      let q := if q.length > MAX_QUEUED_CHANGES then q.drop 1 else q
      ({ c with fileChangeQueue := q }, [])

/-- `flushFileChangeQueue`: send every queued change in arrival order, then clear. -/
def RelayClient.flushFileChangeQueue (c : RelayClient) (t : Nat) : RelayClient × List ClientMsg :=
  match c.currentRoom with
  | none => (c, [])
  | some code =>
    if c.fileChangeQueue.length = 0 then (c, [])
    else
      ({ c with fileChangeQueue := [] },
       c.fileChangeQueue.map (fun ch => .file_change code c.deviceId ch t))

/-- The `ws.on("open")` handler: mark connected and, when still in a room,
register the rejoin once-listener and send `join_room` with the remembered
password and branch. -/
def RelayClient.handleOpen (c : RelayClient) (t : Nat) : RelayClient × List ClientMsg :=
  let c := { c with connected := true }
  match c.currentRoom with
  | none => (c, [])
  | some code =>
    ({ c with rejoinPending := true },
     [.join_room code c.deviceId c.devName c.projectPath c.currentPassword c.currentBranch t])

/-- Inbound frames relevant to the rejoin listener. -/
inductive InMsg
  | room_joined (code : String)
  | errorFrame (error : String)
  | other
deriving DecidableEq, Repr

/-- One inbound frame after a rejoin: `handleServerMessage` (which adopts the
joined room code) followed by the pending rejoin once-listener, which flushes
the queue on `room_joined` and discards it on `error`. -/
def RelayClient.handleRejoinResponse (c : RelayClient) (msg : InMsg) (t : Nat) :
    RelayClient × List ClientMsg :=
  let c := match msg with
    | .room_joined code => { c with currentRoom := some code }
    | _ => c
  if c.rejoinPending then
    match msg with
    | .room_joined _ => RelayClient.flushFileChangeQueue { c with rejoinPending := false } t
    | .errorFrame _ => ({ c with rejoinPending := false, fileChangeQueue := [] }, [])
    | .other => (c, [])
  else (c, [])

/-! ## Concrete example states used by witnesses and counterexamples -/

def exChangeC1 : FileChange :=
  { path := "src/config.ts", type := .change, author := "Alice", deviceId := "devB",
    timestamp := 6, diff := some "+ x", linesAdded := 1, linesRemoved := 0 }

def exRoomC1 : Room :=
  (((((Room.make "HIVE-ABCDEF" "Zeus" none false 0 1).addMember
      "devA" "Zeus" (some "main") 2).2).addMember "devB" "Alice" (some "main") 3).2.lockFile
      "devA" "Zeus" "src/config.ts" 4).2

def exLockC1 : FileLock :=
  { file := "src/config.ts", lockedBy := "Zeus", deviceId := "devA", lockedAt := 4 }

def exManagerC1 : RoomManager := { rooms := [("HIVE-ABCDEF", exRoomC1)] }

def exInfoC3 : DevInfo :=
  { deviceId := "devA", name := "Zeus", status := .active, workingOn := [],
    joinedAt := 2, lastSeen := 2, branch := some "main", typingIn := none, cursor := none }

def exCursorC4 : CursorPosition := { file := "a.ts", line := 3, column := 7 }

def exClientC8 : RelayClient :=
  { deviceId := "devC", devName := "Carol", projectPath := "/proj",
    connected := false, currentRoom := some "HIVE-ABCDEF",
    currentPassword := some "secret123", currentBranch := some "main",
    fileChangeQueue := [exChangeC1], rejoinPending := false }

def exChangeC8 : FileChange :=
  { path := "b.ts", type := .add, author := "Carol", deviceId := "devC",
    timestamp := 7, diff := none, linesAdded := 3, linesRemoved := 0 }

def exOpenClientC8 : RelayClient := (exClientC8.handleOpen 8).1

/-- Two members sharing the display name `X` on different branches. -/
def exRoomC6 : Room :=
  (((Room.make "HIVE-CCCCCC" "X" none false 0 1).addMember "d1" "X" (some "main") 2).2.addMember
    "d2" "X" (some "dev") 3).2

/-- Two members with distinct names on different branches. -/
def exRoomC6b : Room :=
  (((Room.make "HIVE-DDDDDD" "Zeus" none false 0 1).addMember
      "d1" "Zeus" (some "main") 2).2.addMember "d2" "Alice" (some "feature") 3).2

/-- 2001 lines: an `a` line followed by 2000 empty lines. -/
def bigOldC7 : String := String.mk ('a' :: List.replicate 2000 '\n')

/-- 2001 lines: a `b` line followed by 2000 empty lines. -/
def bigNewC7 : String := String.mk ('b' :: List.replicate 2000 '\n')

def exRoomC2a : Room :=
  ((Room.make "HIVE-SECRET" "Zeus" (some "secret123") false 0 1).addMember "devA" "Zeus" none 2).2

def exRoomC2b : Room :=
  ((Room.make "HIVE-OPEN" "Alice" none true 0 1).addMember "devB" "Alice" none 2).2

def exManagerC2 : RoomManager :=
  { rooms := [("HIVE-SECRET", exRoomC2a), ("HIVE-OPEN", exRoomC2b)] }

def exFrameC1 : FileChangeFrame :=
  { code := "HIVE-ABCDEF", deviceId := "devB", change := exChangeC1 }

end CodeHive

namespace CodeHive

/-! ## Supporting lemmas -/

theorem JsMap.find_map_replace {K V : Type} [DecidableEq K] (l : List (K × V)) (k : K) (v : V)
    (h : l.any (fun e => decide (e.1 = k)) = true) :
    (l.map (fun e => if e.1 = k then (k, v) else e)).find? (fun e => decide (e.1 = k)) =
      some (k, v) := by
  induction l with
  | nil => simp at h
  | cons e es ih =>
    by_cases he : e.1 = k
    · simp [he]
    · simp only [List.any_cons, he, decide_eq_true_eq, Bool.false_or, false_or] at h
      simp only [List.map_cons, if_neg he]
      rw [List.find?_cons_of_neg _ (by simpa using he)]
      exact ih (by simpa using h)

theorem JsMap.get_set_self {K V : Type} [DecidableEq K] (l : List (K × V)) (k : K) (v : V) :
    JsMap.get (JsMap.set l k v) k = some v := by
  unfold JsMap.set JsMap.get
  by_cases hany : l.any (fun e => decide (e.1 = k)) = true
  · rw [if_pos hany, JsMap.find_map_replace l k v hany]
    rfl
  · rw [if_neg hany]
    have hnone : l.find? (fun e => decide (e.1 = k)) = none := by
      rw [List.find?_eq_none]
      intro x hx
      intro hxk
      exact hany (List.any_eq_true.mpr ⟨x, hx, hxk⟩)
    rw [List.find?_append, hnone]
    simp

theorem JsMap.get_erase_self {K V : Type} [DecidableEq K] (l : List (K × V)) (k : K) :
    JsMap.get (JsMap.erase l k) k = none := by
  unfold JsMap.erase JsMap.get
  rw [Option.map_eq_none', List.find?_eq_none]
  intro x hx
  simp only [List.mem_filter, decide_eq_true_eq] at hx
  simpa using hx.2

theorem JsMap.set_of_not_contains {K V : Type} [DecidableEq K] (l : List (K × V)) (k : K) (v : V)
    (h : l.any (fun e => decide (e.1 = k)) = false) :
    JsMap.set l k v = l ++ [(k, v)] := by
  unfold JsMap.set
  rw [if_neg (by simp [h])]

/-- Appending to a size-capped ring keeps the appended element last. -/
theorem getLast?_ringAppend {α : Type} (l : List α) (e : α) (M : Nat) (hM : 0 < M) :
    (if (l ++ [e]).length > M then jsSliceLast (l ++ [e]) M else l ++ [e]).getLast? = some e := by
  by_cases hlen : (l ++ [e]).length > M
  · rw [if_pos hlen]
    unfold jsSliceLast
    rw [if_neg (by omega)]
    rw [List.drop_append_of_le_length (by
      simp only [List.length_append, List.length_cons, List.length_nil] at hlen ⊢
      omega)]
    rw [List.getLast?_append_of_ne_nil _ (by simp)]
    rfl
  · rw [if_neg hlen]
    rw [List.getLast?_append_of_ne_nil _ (by simp)]
    rfl

/-- The event appended by `addTimelineEvent` is the last timeline entry and
carries the next monotone id, regardless of ring truncation. -/
theorem Room.addTimelineEvent_getLast (r : Room) (ty : TimelineType) (actor detail : String)
    (t : Nat) :
    ((r.addTimelineEvent ty actor detail t).1).timeline.getLast? =
      some { id := r.timelineCounter + 1, timestamp := t, type := ty, actor, detail } := by
  unfold Room.addTimelineEvent
  exact getLast?_ringAppend r.timeline _ MAX_TIMELINE_EVENTS (by decide)

/-! ## Claims -/

/-- **C5** — `unlockFile` on a file that is not locked returns `{success:true}`
and leaves the room unchanged; a repeated `lockFile` by the device that
already holds the lock returns `{success:true}` and changes nothing (no new
timeline entry, no `lastActivity` update, no lock-map change). -/
theorem unlock_nonLocked_and_relock_idempotent (r : Room) (d n f : String) (t : Nat) :
    (r.getFileLock f = none → r.unlockFile d n f t = ({ success := true }, r)) ∧
    (∀ lock : FileLock, r.getFileLock f = some lock → lock.deviceId = d →
      r.lockFile d n f t = ({ success := true }, r)) := by
  constructor
  · intro hnone
    unfold Room.unlockFile
    unfold Room.getFileLock at hnone
    rw [hnone]
  · intro lock hsome hdev
    unfold Room.lockFile
    unfold Room.getFileLock at hsome
    rw [hsome]
    simp [hdev]

/-- Witness for C5 at a concrete room: `src/config.ts` is locked by `devA`,
`other.ts` is not locked. -/
theorem unlock_nonLocked_and_relock_idempotent_witness :
    (exRoomC1.getFileLock "other.ts" = none ∧
     exRoomC1.getFileLock "src/config.ts" = some exLockC1 ∧ exLockC1.deviceId = "devA") ∧
    (exRoomC1.unlockFile "devA" "Zeus" "other.ts" 9 = ({ success := true }, exRoomC1) ∧
     exRoomC1.lockFile "devA" "Zeus" "src/config.ts" 9 = ({ success := true }, exRoomC1)) :=
  ⟨⟨by decide, by decide, by decide⟩,
   (unlock_nonLocked_and_relock_idempotent exRoomC1 "devA" "Zeus" "other.ts" 9).1 (by decide),
   (unlock_nonLocked_and_relock_idempotent exRoomC1 "devA" "Zeus" "src/config.ts" 9).2
     exLockC1 (by decide) (by decide)⟩

/-- **C9** — a room constructed with the empty string as password stores
`null`: `checkPassword` accepts every candidate, snapshots report
`hasPassword = false`, and the persisted record carries `passwordHash = null`;
and on any room whose stored password is `null`, `checkPassword` accepts
every candidate. -/
theorem emptyPassword_room_is_passwordless (code createdBy : String) (isPublic : Bool)
    (expiresInHours t : Nat) (r : Room) (cand : Option String) :
    (Room.make code createdBy (some "") isPublic expiresInHours t).password = none ∧
    (r.password = none →
      r.checkPassword cand = true ∧
      (r.toRoomInfo).hasPassword = false ∧
      (r.toRoomSummary).hasPassword = false ∧
      r.persistRecord.passwordHash = none ∧
      r.persistRecord.hasPassword = false) := by
  constructor
  · rfl
  · intro hnone
    refine ⟨?_, ?_, ?_, ?_, ?_⟩ <;>
      simp [Room.checkPassword, Room.toRoomInfo, Room.toRoomSummary, Room.persistRecord, hnone]

/-- Witness for C9: a concrete empty-password room accepts an arbitrary
candidate password and persists no hash. -/
theorem emptyPassword_room_is_passwordless_witness :
    ((Room.make "HIVE-QQQQQQ" "Zeus" (some "") false 0 1).password = none) ∧
    ((Room.make "HIVE-QQQQQQ" "Zeus" (some "") false 0 1).checkPassword (some "whatever") = true ∧
     ((Room.make "HIVE-QQQQQQ" "Zeus" (some "") false 0 1).toRoomInfo).hasPassword = false ∧
     ((Room.make "HIVE-QQQQQQ" "Zeus" (some "") false 0 1).toRoomSummary).hasPassword = false ∧
     (Room.make "HIVE-QQQQQQ" "Zeus" (some "") false 0 1).persistRecord.passwordHash = none ∧
     (Room.make "HIVE-QQQQQQ" "Zeus" (some "") false 0 1).persistRecord.hasPassword = false) :=
  ⟨(emptyPassword_room_is_passwordless "HIVE-QQQQQQ" "Zeus" false 0 1
      (Room.make "HIVE-QQQQQQ" "Zeus" (some "") false 0 1) (some "whatever")).1,
   (emptyPassword_room_is_passwordless "HIVE-QQQQQQ" "Zeus" false 0 1
      (Room.make "HIVE-QQQQQQ" "Zeus" (some "") false 0 1) (some "whatever")).2 (by decide)⟩

/-- **C10** — `set_webhook` and `set_room_visibility` on an existing room are
applied unconditionally: even when the frame's `deviceId` is not a member of
the room (and with no password check anywhere), the webhook (resp. the
`isPublic` flag) is overwritten with the frame's value and nothing is sent
back. -/
theorem setWebhook_and_visibility_unauthenticated (rooms : RoomManager) (mw : SetWebhookFrame)
    (mv : SetRoomVisibilityFrame) (room : Room) (t : Nat) :
    (rooms.getRoom mw.code = some room → room.getMember mw.deviceId = none →
      (handleSetWebhook rooms mw t).1.getRoom mw.code = some { room with webhook := mw.webhook } ∧
      (handleSetWebhook rooms mw t).2 = []) ∧
    (rooms.getRoom mv.code = some room → room.getMember mv.deviceId = none →
      (handleSetRoomVisibility rooms mv t).1.getRoom mv.code =
        some { room with isPublic := mv.isPublic } ∧
      (handleSetRoomVisibility rooms mv t).2 = []) := by
  constructor
  · intro hroom _
    unfold handleSetWebhook
    unfold RoomManager.getRoom at hroom ⊢
    rw [hroom]
    exact ⟨JsMap.get_set_self _ _ _, rfl⟩
  · intro hroom _
    unfold handleSetRoomVisibility
    unfold RoomManager.getRoom at hroom ⊢
    rw [hroom]
    exact ⟨JsMap.get_set_self _ _ _, rfl⟩

/-- Witness for C10: `devX` is not a member of the concrete room, yet its
`set_webhook` and `set_room_visibility` frames reconfigure it. -/
theorem setWebhook_and_visibility_unauthenticated_witness :
    (exManagerC1.getRoom "HIVE-ABCDEF" = some exRoomC1 ∧
     exRoomC1.getMember "devX" = none) ∧
    ((handleSetWebhook exManagerC1
        { code := "HIVE-ABCDEF", deviceId := "devX",
          webhook := some { url := "http://evil.example/hook", events := ["all"] } } 9).1.getRoom
        "HIVE-ABCDEF" =
      some { exRoomC1 with
              webhook := some { url := "http://evil.example/hook", events := ["all"] } } ∧
     (handleSetWebhook exManagerC1
        { code := "HIVE-ABCDEF", deviceId := "devX",
          webhook := some { url := "http://evil.example/hook", events := ["all"] } } 9).2 = []) ∧
    ((handleSetRoomVisibility exManagerC1
        { code := "HIVE-ABCDEF", deviceId := "devX", isPublic := true } 9).1.getRoom
        "HIVE-ABCDEF" = some { exRoomC1 with isPublic := true } ∧
     (handleSetRoomVisibility exManagerC1
        { code := "HIVE-ABCDEF", deviceId := "devX", isPublic := true } 9).2 = []) :=
  ⟨⟨by decide, by decide⟩,
   (setWebhook_and_visibility_unauthenticated exManagerC1
      { code := "HIVE-ABCDEF", deviceId := "devX",
        webhook := some { url := "http://evil.example/hook", events := ["all"] } }
      { code := "HIVE-ABCDEF", deviceId := "devX", isPublic := true } exRoomC1 9).1
      (by decide) (by decide),
   (setWebhook_and_visibility_unauthenticated exManagerC1
      { code := "HIVE-ABCDEF", deviceId := "devX",
        webhook := some { url := "http://evil.example/hook", events := ["all"] } }
      { code := "HIVE-ABCDEF", deviceId := "devX", isPublic := true } exRoomC1 9).2
      (by decide) (by decide)⟩

/-- **C1** — a `file_change` frame into an existing room whose `change.path` is
locked by another device is answered with a single in-band `error` frame to
the sender; the registry is unchanged (so `recordFileChange` never ran: no
recent-changes entry, no timeline event, no `lastActivity` update) and no
`file_changed` or `conflict_warning` (indeed no broadcast at all) is emitted. -/
theorem fileChange_locked_rejected (rooms : RoomManager) (msg : FileChangeFrame) (room : Room)
    (lock : FileLock) (t : Nat)
    (hroom : rooms.getRoom msg.code = some room)
    (hlock : room.getFileLock msg.change.path = some lock)
    (hneq : lock.deviceId ≠ msg.deviceId) :
    handleFileChange rooms msg t =
      (rooms, [.reply (.errorFrame
        ("File \"" ++ msg.change.path ++ "\" is locked by " ++ lock.lockedBy) t)]) ∧
    ∀ e ∈ (handleFileChange rooms msg t).2, e.isBroadcast = false := by
  have heq : handleFileChange rooms msg t =
      (rooms, [.reply (.errorFrame
        ("File \"" ++ msg.change.path ++ "\" is locked by " ++ lock.lockedBy) t)]) := by
    unfold handleFileChange
    simp only [hroom, hlock]
    rw [if_pos hneq]
  refine ⟨heq, ?_⟩
  rw [heq]
  intro e he
  simp only [List.mem_singleton] at he
  subst he
  rfl

/-- Witness for C1: `devB` reports a change to `src/config.ts`, which `devA`
holds locked in the concrete room. -/
theorem fileChange_locked_rejected_witness :
    (exManagerC1.getRoom exFrameC1.code = some exRoomC1 ∧
     exRoomC1.getFileLock exFrameC1.change.path = some exLockC1 ∧
     exLockC1.deviceId ≠ exFrameC1.deviceId) ∧
    (handleFileChange exManagerC1 exFrameC1 9 =
      (exManagerC1, [.reply (.errorFrame
        ("File \"" ++ exFrameC1.change.path ++ "\" is locked by " ++ exLockC1.lockedBy) 9)]) ∧
     ∀ e ∈ (handleFileChange exManagerC1 exFrameC1 9).2, e.isBroadcast = false) :=
  ⟨⟨by decide, by decide, by decide⟩,
   fileChange_locked_rejected exManagerC1 exFrameC1 exRoomC1 exLockC1 9
     (by decide) (by decide) (by decide)⟩

/-- **C3** — `removeMember` on a present device returns that member's info and
leaves a state in which the device's typing timer is cancelled, no lock owned
by the device remains (others are kept), the seat is gone, `lastActivity` is
the current time, and a fresh `leave` timeline event (with the next monotone
id) is the last timeline entry; on an absent device it returns `null` with no
state change. -/
theorem removeMember_contract (r : Room) (d : String) (t : Nat) :
    (r.getMember d = none → r.removeMember d t = (none, r)) ∧
    (∀ info : DevInfo, r.getMember d = some info →
      (r.removeMember d t).1 = some info ∧
      d ∉ (r.removeMember d t).2.typingTimers ∧
      (∀ l ∈ (r.removeMember d t).2.locks, l.2.deviceId ≠ d) ∧
      (∀ l ∈ r.locks, l.2.deviceId ≠ d → l ∈ (r.removeMember d t).2.locks) ∧
      (r.removeMember d t).2.getMember d = none ∧
      (r.removeMember d t).2.lastActivity = t ∧
      (r.removeMember d t).2.timelineCounter = r.timelineCounter + 1 ∧
      (r.removeMember d t).2.timeline.getLast? =
        some { id := r.timelineCounter + 1, timestamp := t, type := .leave,
               actor := info.name, detail := info.name ++ " left the room" }) := by
  constructor
  · intro hnone
    unfold Room.removeMember
    unfold Room.getMember at hnone
    rw [hnone]
  · intro info hmem
    unfold Room.getMember at hmem
    have hres : r.removeMember d t =
        (some info,
          ((({ r with
                typingTimers := r.typingTimers.filter (fun x => decide (x ≠ d)),
                locks := r.locks.filter (fun e => decide (e.2.deviceId ≠ d)),
                clients := JsMap.erase r.clients d } : Room).touch t).addTimelineEvent .leave
            info.name (info.name ++ " left the room") t).1) := by
      unfold Room.removeMember
      rw [hmem]
    rw [hres]
    refine ⟨rfl, ?_, ?_, ?_, ?_, ?_, ?_, ?_⟩
    · simp [Room.addTimelineEvent, Room.touch, List.mem_filter]
    · intro l hl
      simp only [Room.addTimelineEvent, Room.touch, List.mem_filter,
        decide_eq_true_eq] at hl
      exact hl.2
    · intro l hl hld
      simp only [Room.addTimelineEvent, Room.touch, List.mem_filter, decide_eq_true_eq]
      exact ⟨hl, hld⟩
    · show JsMap.get (JsMap.erase r.clients d) d = none
      exact JsMap.get_erase_self r.clients d
    · rfl
    · rfl
    · exact Room.addTimelineEvent_getLast _ .leave info.name (info.name ++ " left the room") t

/-- Witness for C3 at the concrete room: removing `devA` (who holds the lock
on `src/config.ts`) returns their info, releases the lock, keeps no timer,
empties their seat, and appends the `leave` event. -/
theorem removeMember_contract_witness :
    (exRoomC1.getMember "devX" = none ∧ exRoomC1.removeMember "devX" 9 = (none, exRoomC1)) ∧
    (exRoomC1.getMember "devA" = some exInfoC3 ∧
     (exRoomC1.removeMember "devA" 9).1 = some exInfoC3 ∧
     (∀ l ∈ (exRoomC1.removeMember "devA" 9).2.locks, l.2.deviceId ≠ "devA") ∧
     (exRoomC1.removeMember "devA" 9).2.getMember "devA" = none ∧
     (exRoomC1.removeMember "devA" 9).2.lastActivity = 9 ∧
     (exRoomC1.removeMember "devA" 9).2.timeline.getLast? =
       some { id := exRoomC1.timelineCounter + 1, timestamp := 9, type := .leave,
              actor := exInfoC3.name, detail := exInfoC3.name ++ " left the room" }) :=
  ⟨⟨by decide, (removeMember_contract exRoomC1 "devX" 9).1 (by decide)⟩,
   by decide,
   ((removeMember_contract exRoomC1 "devA" 9).2 exInfoC3 (by decide)).1,
   ((removeMember_contract exRoomC1 "devA" 9).2 exInfoC3 (by decide)).2.2.1,
   ((removeMember_contract exRoomC1 "devA" 9).2 exInfoC3 (by decide)).2.2.2.2.1,
   ((removeMember_contract exRoomC1 "devA" 9).2 exInfoC3 (by decide)).2.2.2.2.2.1,
   ((removeMember_contract exRoomC1 "devA" 9).2 exInfoC3 (by decide)).2.2.2.2.2.2.2⟩

/-- **C4** (counterexample) — the claim says `lastActivity` advances on every
member-mutating or content event *including `updateCursor`*; on the concrete
room, `updateCursor` visibly updates the member's cursor yet leaves
`lastActivity` unchanged (the operation reads no clock at all). -/
theorem lastActivity_updateCursor_counterexample :
    (exRoomC1.updateCursor "devA" (some exCursorC4)).getMember "devA" ≠
      exRoomC1.getMember "devA" ∧
    (exRoomC1.updateCursor "devA" (some exCursorC4)).lastActivity = exRoomC1.lastActivity ∧
    exRoomC1.lastActivity = 4 := by
  refine ⟨by decide, by decide, by decide⟩

/-- **C4** (amended) — `lastActivity` is set to the current time by successful
`addMember`, `removeMember`, `updateHeartbeat` (existing member), `lockFile`
(fresh acquisition), `unlockFile` (actual release) and `recordFileChange`;
it is left unchanged by `updateCursor`, `updateWorkingFiles` and `setTyping`
(and the read-only queries `getMember`, `getLocks`, `getTimeline`,
`toRoomInfo`, `toRoomSummary`, `findDeadClients` are pure observers that
return no room state at all). -/
theorem lastActivity_policy (r : Room) (t : Nat) :
    (∀ d n b, (r.addMember d n b t).1 = none → (r.addMember d n b t).2.lastActivity = t) ∧
    (∀ d info, r.getMember d = some info → (r.removeMember d t).2.lastActivity = t) ∧
    (∀ d st b info, r.getMember d = some info → (r.updateHeartbeat d st b t).lastActivity = t) ∧
    (∀ d n f, r.getFileLock f = none → r.locks.length < MAX_LOCKS_PER_ROOM →
      (r.lockFile d n f t).2.lastActivity = t) ∧
    (∀ d n f lock, r.getFileLock f = some lock → lock.deviceId = d →
      (r.unlockFile d n f t).2.lastActivity = t) ∧
    (∀ ch, (r.recordFileChange ch t).2.lastActivity = t) ∧
    (∀ d cur, (r.updateCursor d cur).lastActivity = r.lastActivity) ∧
    (∀ d n fs, (r.updateWorkingFiles d n fs t).2.lastActivity = r.lastActivity) ∧
    (∀ d f, (r.setTyping d f).lastActivity = r.lastActivity) := by
  refine ⟨?_, ?_, ?_, ?_, ?_, ?_, ?_, ?_, ?_⟩
  · intro d n b h
    unfold Room.addMember at h ⊢
    split_ifs at h ⊢ <;> rfl
  · intro d info hmem
    unfold Room.getMember at hmem
    simp only [Room.removeMember, hmem]
    rfl
  · intro d st b info hmem
    unfold Room.getMember at hmem
    simp only [Room.updateHeartbeat, hmem]
    split <;> rfl
  · intro d n f hnone hcap
    unfold Room.getFileLock at hnone
    simp only [Room.lockFile, hnone]
    rw [if_neg (by omega)]
    rfl
  · intro d n f lock hsome hdev
    unfold Room.getFileLock at hsome
    simp only [Room.unlockFile, hsome]
    rw [if_neg (by simp [hdev])]
    rfl
  · intro ch
    rfl
  · intro d cur
    unfold Room.updateCursor
    split <;> rfl
  · intro d n fs
    simp only [Room.updateWorkingFiles]
    split <;> rfl
  · intro d f
    simp only [Room.setTyping]
    split
    · rfl
    · split <;> rfl

/-- Witness for the amended C4: on the concrete room each mutating call sets
`lastActivity` to the passed clock value 9, and each of the three
non-touching calls leaves it at 4. -/
theorem lastActivity_policy_witness :
    ((exRoomC1.addMember "devC" "Carol" none 9).1 = none ∧
     exRoomC1.getMember "devA" = some exInfoC3 ∧
     exRoomC1.getFileLock "other.ts" = none ∧
     exRoomC1.locks.length < MAX_LOCKS_PER_ROOM ∧
     exRoomC1.getFileLock "src/config.ts" = some exLockC1 ∧
     exLockC1.deviceId = "devA") ∧
    ((exRoomC1.addMember "devC" "Carol" none 9).2.lastActivity = 9 ∧
     (exRoomC1.removeMember "devA" 9).2.lastActivity = 9 ∧
     (exRoomC1.updateHeartbeat "devA" .idle none 9).lastActivity = 9 ∧
     (exRoomC1.lockFile "devA" "Zeus" "other.ts" 9).2.lastActivity = 9 ∧
     (exRoomC1.unlockFile "devA" "Zeus" "src/config.ts" 9).2.lastActivity = 9 ∧
     (exRoomC1.recordFileChange exChangeC1 9).2.lastActivity = 9 ∧
     (exRoomC1.updateCursor "devA" (some exCursorC4)).lastActivity = exRoomC1.lastActivity ∧
     (exRoomC1.updateWorkingFiles "devA" "Zeus" ["a.ts"] 9).2.lastActivity =
       exRoomC1.lastActivity ∧
     (exRoomC1.setTyping "devA" (some "a.ts")).lastActivity = exRoomC1.lastActivity) :=
  ⟨⟨by decide, by decide, by decide, by decide, by decide, by decide⟩,
   (lastActivity_policy exRoomC1 9).1 "devC" "Carol" none (by decide),
   (lastActivity_policy exRoomC1 9).2.1 "devA" exInfoC3 (by decide),
   (lastActivity_policy exRoomC1 9).2.2.1 "devA" .idle none exInfoC3 (by decide),
   (lastActivity_policy exRoomC1 9).2.2.2.1 "devA" "Zeus" "other.ts" (by decide) (by decide),
   (lastActivity_policy exRoomC1 9).2.2.2.2.1 "devA" "Zeus" "src/config.ts" exLockC1
     (by decide) (by decide),
   (lastActivity_policy exRoomC1 9).2.2.2.2.2.1 exChangeC1,
   (lastActivity_policy exRoomC1 9).2.2.2.2.2.2.1 "devA" (some exCursorC4),
   (lastActivity_policy exRoomC1 9).2.2.2.2.2.2.2.1 "devA" "Zeus" ["a.ts"],
   (lastActivity_policy exRoomC1 9).2.2.2.2.2.2.2.2 "devA" (some "a.ts")⟩

/-- **C8** — while in a room but disconnected, `reportFileChange` queues the
change (dropping the oldest entry when the queue would exceed
`MAX_QUEUED_CHANGES = 50`) and sends nothing; when the transport opens with
`currentRoom` still set, the client sends `join_room` with the remembered
password and branch; the rejoin listener then, on `room_joined`, sends every
queued change as a `file_change` frame in arrival order and clears the queue,
and, on `error`, clears the queue without sending anything. -/
theorem offlineQueue_contract (c : RelayClient) (change : FileChange) (code err : String)
    (t : Nat) :
    (c.currentRoom = some code → c.connected = false →
      (c.reportFileChange change t).2 = [] ∧
      (c.reportFileChange change t).1.fileChangeQueue =
        (if (c.fileChangeQueue ++ [change]).length > MAX_QUEUED_CHANGES
         then (c.fileChangeQueue ++ [change]).drop 1 else c.fileChangeQueue ++ [change]) ∧
      (c.fileChangeQueue.length ≤ MAX_QUEUED_CHANGES →
        (c.reportFileChange change t).1.fileChangeQueue.length ≤ MAX_QUEUED_CHANGES)) ∧
    (c.currentRoom = some code →
      (c.handleOpen t).2 =
        [.join_room code c.deviceId c.devName c.projectPath c.currentPassword c.currentBranch t] ∧
      (c.handleOpen t).1.rejoinPending = true ∧
      (c.handleOpen t).1.fileChangeQueue = c.fileChangeQueue) ∧
    (c.rejoinPending = true →
      (c.handleRejoinResponse (.room_joined code) t).2 =
        c.fileChangeQueue.map (fun ch => .file_change code c.deviceId ch t) ∧
      (c.handleRejoinResponse (.room_joined code) t).1.fileChangeQueue = []) ∧
    (c.rejoinPending = true →
      (c.handleRejoinResponse (.errorFrame err) t).2 = [] ∧
      (c.handleRejoinResponse (.errorFrame err) t).1.fileChangeQueue = []) := by
  refine ⟨?_, ?_, ?_, ?_⟩
  · intro hroom hconn
    simp only [RelayClient.reportFileChange, hroom, hconn]
    refine ⟨rfl, rfl, ?_⟩
    intro hle
    show (if (c.fileChangeQueue ++ [change]).length > MAX_QUEUED_CHANGES
          then (c.fileChangeQueue ++ [change]).drop 1
          else c.fileChangeQueue ++ [change]).length ≤ MAX_QUEUED_CHANGES
    split_ifs with hgt
    · simp only [List.length_drop, List.length_append, List.length_cons, List.length_nil]
      omega
    · simp only [List.length_append, List.length_cons, List.length_nil] at hgt ⊢
      omega
  · intro hroom
    simp [RelayClient.handleOpen, hroom]
  · intro hpend
    rcases hq : c.fileChangeQueue with _ | ⟨ch, rest⟩ <;>
      simp [RelayClient.handleRejoinResponse, RelayClient.flushFileChangeQueue, hpend, hq]
  · intro hpend
    simp [RelayClient.handleRejoinResponse, hpend]

/-- Witness for C8: the concrete offline client queues a change without
sending, rejoins with its remembered password `secret123` and branch `main`
on reconnect, flushes its queue in order on `room_joined`, and discards it
on `error`. -/
theorem offlineQueue_contract_witness :
    (exClientC8.currentRoom = some "HIVE-ABCDEF" ∧ exClientC8.connected = false ∧
     exOpenClientC8.rejoinPending = true) ∧
    ((exClientC8.reportFileChange exChangeC8 7).2 = [] ∧
     (exClientC8.reportFileChange exChangeC8 7).1.fileChangeQueue =
       (if (exClientC8.fileChangeQueue ++ [exChangeC8]).length > MAX_QUEUED_CHANGES
        then (exClientC8.fileChangeQueue ++ [exChangeC8]).drop 1
        else exClientC8.fileChangeQueue ++ [exChangeC8])) ∧
    ((exClientC8.handleOpen 8).2 =
      [.join_room "HIVE-ABCDEF" exClientC8.deviceId exClientC8.devName exClientC8.projectPath
        exClientC8.currentPassword exClientC8.currentBranch 8]) ∧
    ((exOpenClientC8.handleRejoinResponse (.room_joined "HIVE-ABCDEF") 9).2 =
       exOpenClientC8.fileChangeQueue.map
         (fun ch => .file_change "HIVE-ABCDEF" exOpenClientC8.deviceId ch 9) ∧
     (exOpenClientC8.handleRejoinResponse (.room_joined "HIVE-ABCDEF") 9).1.fileChangeQueue =
       []) ∧
    ((exOpenClientC8.handleRejoinResponse (.errorFrame "Wrong password") 9).2 = [] ∧
     (exOpenClientC8.handleRejoinResponse
        (.errorFrame "Wrong password") 9).1.fileChangeQueue = []) :=
  ⟨⟨by decide, by decide, by decide⟩,
   ⟨((offlineQueue_contract exClientC8 exChangeC8 "HIVE-ABCDEF" "Wrong password" 7).1
       (by decide) (by decide)).1,
    ((offlineQueue_contract exClientC8 exChangeC8 "HIVE-ABCDEF" "Wrong password" 7).1
       (by decide) (by decide)).2.1⟩,
   ((offlineQueue_contract exClientC8 exChangeC8 "HIVE-ABCDEF" "Wrong password" 8).2.1
      (by decide)).1,
   (offlineQueue_contract exOpenClientC8 exChangeC8 "HIVE-ABCDEF" "Wrong password" 9).2.2.1
      (by decide),
   (offlineQueue_contract exOpenClientC8 exChangeC8 "HIVE-ABCDEF" "Wrong password" 9).2.2.2
      (by decide)⟩

/-- `getBranches` keyed by display name reduces, when all member names are
distinct, to the in-order list of (name, branch) pairs of the members with a
truthy branch. -/
theorem getBranches_foldl_eq (cs : List (String × DevInfo)) (acc : List (String × String))
    (hnd : (cs.map (fun e => e.2.name)).Nodup)
    (hdisj : ∀ e ∈ cs, ∀ a ∈ acc, a.1 ≠ e.2.name) :
    cs.foldl
      (fun branches e =>
        if jsTruthy e.2.branch then JsMap.set branches e.2.name (e.2.branch.getD "")
        else branches) acc =
    acc ++ cs.filterMap
      (fun e => if jsTruthy e.2.branch then some (e.2.name, e.2.branch.getD "") else none) := by
  induction cs generalizing acc with
  | nil => simp
  | cons e es ih =>
    have hnd' : (es.map (fun x => x.2.name)).Nodup := by
      simpa using hnd.of_cons
    have hmemname : e.2.name ∉ es.map (fun x => x.2.name) := by
      have := hnd
      simp only [List.map_cons, List.nodup_cons] at this
      exact this.1
    simp only [List.foldl_cons, List.filterMap_cons]
    by_cases hb : jsTruthy e.2.branch
    · rw [if_pos hb, if_pos hb]
      have hany : acc.any (fun a => decide (a.1 = e.2.name)) = false := by
        rw [List.any_eq_false]
        intro a ha
        simp only [decide_eq_true_eq]
        exact hdisj e (List.mem_cons_self e es) a ha
      have hdisj' : ∀ e' ∈ es, ∀ a ∈ acc ++ [(e.2.name, e.2.branch.getD "")],
          a.1 ≠ e'.2.name := by
        intro e' he' a ha
        rcases List.mem_append.mp ha with hacc | hsingle
        · exact hdisj e' (List.mem_cons_of_mem e he') a hacc
        · simp only [List.mem_singleton] at hsingle
          subst hsingle
          intro hcontra
          apply hmemname
          have hname : e.2.name = e'.2.name := hcontra
          rw [hname]
          exact List.mem_map_of_mem (fun x => x.2.name) he'
      rw [JsMap.set_of_not_contains acc e.2.name (e.2.branch.getD "") hany]
      rw [ih (acc ++ [(e.2.name, e.2.branch.getD "")]) hnd' hdisj']
      simp
    · rw [if_neg hb, if_neg hb]
      exact ih acc hnd' (fun e' he' a ha => hdisj e' (List.mem_cons_of_mem e he') a ha)

/-- **C6** (counterexample) — with two members that share the display name
`X` but sit on two distinct branches (`main`, `dev`), the name-keyed branch
record collapses to one entry and `checkBranchDivergence` reports
`diverged = false`, although more than one distinct non-null branch is
present among the members. -/
theorem checkBranchDivergence_duplicateNames_counterexample :
    (exRoomC6.checkBranchDivergence).diverged = false ∧
    (exRoomC6.clients.filterMap (fun e => e.2.branch)).dedup.length = 2 := by
  exact ⟨by decide, by decide⟩

/-- **C6** (amended) — provided the members' display names are pairwise
distinct, `checkBranchDivergence` reports `diverged = true` exactly when more
than one distinct branch is present among the members that have a (truthy)
branch, and returns the in-order name→branch mapping of exactly those
members; without that proviso the result is keyed by name with
later same-named members overwriting earlier ones. -/
theorem checkBranchDivergence_characterization (r : Room)
    (hnames : (r.clients.map (fun e => e.2.name)).Nodup) :
    (r.checkBranchDivergence).branches =
      r.clients.filterMap
        (fun e => if jsTruthy e.2.branch then some (e.2.name, e.2.branch.getD "") else none) ∧
    ((r.checkBranchDivergence).diverged = true ↔
      1 < (r.clients.filterMap
        (fun e => if jsTruthy e.2.branch then some (e.2.branch.getD "") else none)).dedup.length) := by
  have hb : r.getBranches =
      r.clients.filterMap
        (fun e => if jsTruthy e.2.branch then some (e.2.name, e.2.branch.getD "") else none) := by
    have h := getBranches_foldl_eq r.clients [] hnames (by intro e he a ha; simp at ha)
    simpa [Room.getBranches] using h
  have hvals : r.getBranches.map (fun e => e.2) =
      r.clients.filterMap
        (fun e => if jsTruthy e.2.branch then some (e.2.branch.getD "") else none) := by
    rw [hb, List.map_filterMap]
    apply List.filterMap_congr
    intro e _
    by_cases hbr : jsTruthy e.2.branch <;> simp [hbr]
  constructor
  · simp only [Room.checkBranchDivergence]
    split <;> exact hb
  · simp only [Room.checkBranchDivergence]
    split
    · rename_i hle
      rw [hvals] at hle
      simp only [Bool.false_eq_true, false_iff]
      omega
    · rename_i hgt
      rw [hvals] at hgt
      simp only [true_iff]
      omega

/-- Witness for the amended C6: in the concrete two-member room with distinct
names Zeus (`main`) and Alice (`feature`), divergence is reported and the
mapping lists both members. -/
theorem checkBranchDivergence_characterization_witness :
    ((exRoomC6b.clients.map (fun e => e.2.name)).Nodup) ∧
    ((exRoomC6b.checkBranchDivergence).branches =
      exRoomC6b.clients.filterMap
        (fun e => if jsTruthy e.2.branch then some (e.2.name, e.2.branch.getD "") else none) ∧
     ((exRoomC6b.checkBranchDivergence).diverged = true ↔
      1 < (exRoomC6b.clients.filterMap
        (fun e => if jsTruthy e.2.branch then some (e.2.branch.getD "") else none)).dedup.length)) :=
  ⟨by decide, checkBranchDivergence_characterization exRoomC6b (by decide)⟩

/-- Splitting a pure run of separators yields `n + 1` empty parts. -/
theorem jsSplitAux_replicate (sep : Char) (n : Nat) :
    jsSplitAux sep (List.replicate n sep) = List.replicate (n + 1) "" := by
  induction n with
  | zero => rfl
  | succ n ih =>
    rw [List.replicate_succ]
    unfold jsSplitAux
    rw [ih]
    simp [List.replicate_succ]

/-- Splitting one non-separator character followed by `n` separators gives
that character's line followed by `n` empty lines. -/
theorem jsSplit_cons_replicate (c sep : Char) (h : ¬ c = sep) (n : Nat) :
    jsSplit (String.mk (c :: List.replicate n sep)) sep =
      String.mk [c] :: List.replicate n "" := by
  show jsSplitAux sep (c :: List.replicate n sep) = _
  unfold jsSplitAux
  rw [jsSplitAux_replicate, if_neg h, List.replicate_succ]

theorem jsSplit_bigOldC7 : jsSplit bigOldC7 '\n' = "a" :: List.replicate 2000 "" :=
  jsSplit_cons_replicate 'a' '\n' (by decide) 2000

theorem jsSplit_bigNewC7 : jsSplit bigNewC7 '\n' = "b" :: List.replicate 2000 "" :=
  jsSplit_cons_replicate 'b' '\n' (by decide) 2000

theorem jsSplit_bigOldC7_length : (jsSplit bigOldC7 '\n').length = 2001 := by
  rw [jsSplit_bigOldC7, List.length_cons, List.length_replicate]

theorem jsSplit_bigNewC7_length : (jsSplit bigNewC7 '\n').length = 2001 := by
  rw [jsSplit_bigNewC7, List.length_cons, List.length_replicate]

/-- **C7** (counterexample) — two distinct contents of 2001 lines each (both
above `MAX_DIFF_LINES = 2000`): the placeholder branch reports
`linesAdded = linesRemoved = 1`, not the claimed
`max(0, newLineCount − oldLineCount) = 0`. -/
theorem computeDiffSummary_equalCounts_counterexample :
    (jsSplit bigOldC7 '\n').length = 2001 ∧
    (jsSplit bigNewC7 '\n').length = 2001 ∧
    bigOldC7 ≠ bigNewC7 ∧
    (computeDiffSummary bigOldC7 bigNewC7).linesAdded = 1 ∧
    (computeDiffSummary bigOldC7 bigNewC7).linesRemoved = 1 := by
  refine ⟨jsSplit_bigOldC7_length, jsSplit_bigNewC7_length, by decide, ?_, ?_⟩ <;>
  · simp only [computeDiffSummary, jsSplit_bigOldC7_length, jsSplit_bigNewC7_length,
      MAX_DIFF_LINES]
    norm_num

/-- **C7** (amended) — when either side splits into more than
`MAX_DIFF_LINES = 2000` lines, `computeDiffSummary` returns the placeholder
diff string, and the counts are the length deltas
(`linesAdded = max(0, new − old)`, `linesRemoved = max(0, old − new)`)
*except* that when the two line counts are equal both counts are reported
as 1. -/
theorem computeDiffSummary_large (oldContent newContent : String)
    (h : (jsSplit oldContent '\n').length > MAX_DIFF_LINES ∨
         (jsSplit newContent '\n').length > MAX_DIFF_LINES) :
    (computeDiffSummary oldContent newContent).diff =
      "(file too large for detailed diff: " ++ Nat.repr (jsSplit oldContent '\n').length ++
      " → " ++ Nat.repr (jsSplit newContent '\n').length ++ " lines)" ∧
    (computeDiffSummary oldContent newContent).linesAdded =
      (if (jsSplit oldContent '\n').length = (jsSplit newContent '\n').length then 1
       else (jsSplit newContent '\n').length - (jsSplit oldContent '\n').length) ∧
    (computeDiffSummary oldContent newContent).linesRemoved =
      (if (jsSplit oldContent '\n').length = (jsSplit newContent '\n').length then 1
       else (jsSplit oldContent '\n').length - (jsSplit newContent '\n').length) := by
  simp only [computeDiffSummary]
  rw [if_pos h]
  refine ⟨rfl, ?_, ?_⟩ <;>
  · dsimp only
    split_ifs <;> omega

/-- Witness for the amended C7: a one-line old content against the 2001-line
new content; the placeholder reports the length deltas 2000 and 0. -/
theorem computeDiffSummary_large_witness :
    ((jsSplit "a" '\n').length > MAX_DIFF_LINES ∨
     (jsSplit bigNewC7 '\n').length > MAX_DIFF_LINES) ∧
    ((computeDiffSummary "a" bigNewC7).diff =
      "(file too large for detailed diff: " ++ Nat.repr (jsSplit "a" '\n').length ++
      " → " ++ Nat.repr (jsSplit bigNewC7 '\n').length ++ " lines)" ∧
     (computeDiffSummary "a" bigNewC7).linesAdded =
      (if (jsSplit "a" '\n').length = (jsSplit bigNewC7 '\n').length then 1
       else (jsSplit bigNewC7 '\n').length - (jsSplit "a" '\n').length) ∧
     (computeDiffSummary "a" bigNewC7).linesRemoved =
      (if (jsSplit "a" '\n').length = (jsSplit bigNewC7 '\n').length then 1
       else (jsSplit "a" '\n').length - (jsSplit bigNewC7 '\n').length)) :=
  ⟨Or.inr (by rw [jsSplit_bigNewC7_length]; decide),
   computeDiffSummary_large "a" bigNewC7 (Or.inr (by rw [jsSplit_bigNewC7_length]; decide))⟩

/-- **C2** — `RoomManager.toJSON` (the snapshot `saveRooms` serializes to
disk every 60 s) holds exactly one record per non-empty room: every
non-empty room contributes its record, every record comes from a non-empty
room, and the record codes are pairwise distinct.  For a room with a
non-null (hence, by construction, non-empty) password, `passwordHash` is the
SHA-256 hex digest of that password; a password-less room persists
`passwordHash = null`.  The records' only string fields are `code`,
`createdBy` and `passwordHash`, so a plaintext password that does not
coincide with any room's code, creator name, or password digest appears
nowhere in the serialized output. -/
theorem toJSON_persistence (m : RoomManager)
    (hkeys : (m.rooms.map (fun e => e.1)).Nodup)
    (hcode : ∀ e ∈ m.rooms, e.1 = e.2.code) :
    (∀ e ∈ m.rooms, e.2.isEmpty = false → e.2.persistRecord ∈ m.toJSON) ∧
    (∀ p ∈ m.toJSON, ∃ e ∈ m.rooms, e.2.isEmpty = false ∧ p = e.2.persistRecord) ∧
    (m.toJSON.map (fun p => p.code)).Nodup ∧
    (∀ e ∈ m.rooms, ∀ pw, e.2.password = some pw → pw ≠ "" →
      e.2.persistRecord.passwordHash = some (hashPassword pw)) ∧
    (∀ e ∈ m.rooms, e.2.password = none → e.2.persistRecord.passwordHash = none) ∧
    (∀ pw : String,
      (∀ e ∈ m.rooms, pw ≠ e.2.code ∧ pw ≠ e.2.createdBy ∧
        ∀ q, e.2.password = some q → pw ≠ hashPassword q) →
      ∀ p ∈ m.toJSON, pw ∉ p.stringFields) := by
  refine ⟨?_, ?_, ?_, ?_, ?_, ?_⟩
  · intro e he hemp
    unfold RoomManager.toJSON
    exact List.mem_map_of_mem _ (List.mem_filter.mpr ⟨he, by simp [hemp]⟩)
  · intro p hp
    unfold RoomManager.toJSON at hp
    rcases List.mem_map.mp hp with ⟨e, hef, hpe⟩
    rcases List.mem_filter.mp hef with ⟨hem, hne⟩
    exact ⟨e, hem, by simpa using hne, hpe.symm⟩
  · have h1 : m.toJSON.map (fun p => p.code) =
        (m.rooms.filter (fun e => !e.2.isEmpty)).map (fun e => e.1) := by
      unfold RoomManager.toJSON
      rw [List.map_map]
      apply List.map_congr_left
      intro e he
      exact (hcode e (List.mem_of_mem_filter he)).symm
    rw [h1]
    exact List.Nodup.sublist ((List.filter_sublist _).map _) hkeys
  · intro e _ pw hpw hne
    simp [Room.persistRecord, hpw, hne]
  · intro e _ hnone
    simp [Room.persistRecord, hnone]
  · intro pw hcond p hp
    unfold RoomManager.toJSON at hp
    rcases List.mem_map.mp hp with ⟨e, hef, hpe⟩
    have hem := List.mem_of_mem_filter hef
    rcases hcond e hem with ⟨hc1, hc2, hc3⟩
    rw [← hpe]
    intro hmem
    have hmem' : pw = e.2.persistRecord.code ∨ pw = e.2.persistRecord.createdBy ∨
        e.2.persistRecord.passwordHash = some pw := by
      simpa [PersistedRoom.stringFields, Option.mem_toList, Option.mem_def] using hmem
    rcases hmem' with h1 | h1 | h1
    · exact hc1 (by simpa [Room.persistRecord] using h1)
    · exact hc2 (by simpa [Room.persistRecord] using h1)
    · rcases hq : e.2.password with _ | q
      · simp [Room.persistRecord, hq] at h1
      · by_cases hq0 : q = ""
        · simp [Room.persistRecord, hq, hq0] at h1
        · simp only [Room.persistRecord, hq, if_neg hq0, Option.some_inj] at h1
          exact hc3 q hq h1.symm

/-- Witness for C2: a concrete registry with a password-protected non-empty
room and a password-less non-empty room. -/
theorem toJSON_persistence_witness :
    ((exManagerC2.rooms.map (fun e => e.1)).Nodup ∧
     (∀ e ∈ exManagerC2.rooms, e.1 = e.2.code)) ∧
    ((∀ e ∈ exManagerC2.rooms, e.2.isEmpty = false →
        e.2.persistRecord ∈ exManagerC2.toJSON) ∧
     (∀ p ∈ exManagerC2.toJSON, ∃ e ∈ exManagerC2.rooms,
        e.2.isEmpty = false ∧ p = e.2.persistRecord) ∧
     (exManagerC2.toJSON.map (fun p => p.code)).Nodup ∧
     (∀ e ∈ exManagerC2.rooms, ∀ pw, e.2.password = some pw → pw ≠ "" →
        e.2.persistRecord.passwordHash = some (hashPassword pw)) ∧
     (∀ e ∈ exManagerC2.rooms, e.2.password = none →
        e.2.persistRecord.passwordHash = none) ∧
     (∀ pw : String,
       (∀ e ∈ exManagerC2.rooms, pw ≠ e.2.code ∧ pw ≠ e.2.createdBy ∧
         ∀ q, e.2.password = some q → pw ≠ hashPassword q) →
       ∀ p ∈ exManagerC2.toJSON, pw ∉ p.stringFields)) :=
  ⟨⟨by decide, by decide⟩, toJSON_persistence exManagerC2 (by decide) (by decide)⟩

end CodeHive
